import Mathlib

/-!
Shallow embedding of `appscale/agents/config.py` (class `AppScaleState`):
the `shell` retry primitive and the locations-file configuration store
(`get_infrastructure_option`, `upgrade_json_file`, and the named getters).

Modelling conventions:
- Decoded JSON/YAML documents are values of the inductive `JVal`
  (strings, lists, string-keyed mappings); file contents are stored
  decoded, since every claim is about decoded shapes, not raw bytes.
- The per-keyname filesystem state is `FS`: the optional contents of
  `locations-<keyname>.json` and `locations-<keyname>.yaml` (`none` means
  the file does not exist, so opening it for reading raises `IOError`),
  plus `jsonWritable`, which models whether opening the JSON file for
  writing succeeds (the environment condition behind an `IOError` at the
  write step of the migration).
- Python exceptions relevant here are `PyExc`: `BadConfigurationException`
  with its message (apostrophes in the source message text are elided),
  and `AttributeError` for `.get` called on a non-dict value.
- The subordinate-process environment for `shell` is an oracle
  `env : Nat -> LaunchResult` giving, for each 0-based attempt index,
  either an `OSError` at launch (`launchErr`) or a completed run with a
  return code and the captured combined stdout/stderr (`ran`).
  `shell` returns the Python result paired with the number of `Popen`
  launches performed.
-/

/-- A decoded JSON/YAML value: a string scalar, a list, or a
string-keyed mapping (Python `dict`, modelled as an association list in
insertion order). -/
inductive JVal where
  | vstr (s : String)
  | vlist (xs : List JVal)
  | vmap (m : List (String × JVal))

/-- Python `dict.get(k)`: the value at the first matching key, if any. -/
def dictGet (m : List (String × JVal)) (k : String) : Option JVal :=
  (m.find? (fun p => p.1 == k)).map (fun p => p.2)

/-- Python exceptions raised by the configuration-store code paths:
`BadConfigurationException(msg)` and `AttributeError` (from calling
`.get` on a decoded value that is not a dict). -/
inductive PyExc where
  | badConfigurationException (msg : String)
  | attributeError
deriving DecidableEq

/-- The per-keyname filesystem state: contents of the locations JSON
file and the legacy locations YAML file (`none` = the file does not
exist), and whether opening the JSON file for writing succeeds. -/
structure FS where
  json : Option JVal
  yaml : Option JVal
  jsonWritable : Bool

/-- Message of the `BadConfigurationException` raised when the locations
file cannot be opened in `get_infrastructure_option`. -/
def readErrMsg (keyname : String) : String :=
  "Couldnt read from locations file, AppScale may not be running with keyname "
    ++ keyname

/-- Message of the `BadConfigurationException` raised when any I/O step
of `upgrade_json_file` fails. -/
def upgradeErrMsg (keyname : String) : String :=
  "Couldnt upgrade locations json file, AppScale may not be running with keyname "
    ++ keyname

/-- `upgrade_json_file(keyname)`: read the JSON file, read the YAML
file, write `{node_info: <json>, infrastructure_info: <yaml>}` to the
JSON file, then remove the YAML file. Any `IOError` (a missing input
file, or the JSON file not being writable) is caught and re-raised as
`BadConfigurationException`. Returns the Python outcome together with
the filesystem state afterwards. -/
def upgrade_json_file (keyname : String) (fs : FS) : Except PyExc Unit × FS :=
  match fs.json with
  | none => (Except.error (PyExc.badConfigurationException (upgradeErrMsg keyname)), fs)
  | some role_info =>
    match fs.yaml with
    | none => (Except.error (PyExc.badConfigurationException (upgradeErrMsg keyname)), fs)
    | some locations_yaml_contents =>
      if fs.jsonWritable then
        let locations_json := JVal.vmap
          [("node_info", role_info), ("infrastructure_info", locations_yaml_contents)]
        (Except.ok (), { fs with json := some locations_json, yaml := none })
      else
        (Except.error (PyExc.badConfigurationException (upgradeErrMsg keyname)), fs)

/-- Python `file_contents.get('infrastructure_info', {}).get(tag)`:
field lookup on the decoded top-level document. An `AttributeError`
results when `.get` is reached on a value that is not a dict. -/
def pyGetField (file_contents : JVal) (tag : String) : Except PyExc (Option JVal) :=
  match file_contents with
  | JVal.vmap m =>
    match dictGet m "infrastructure_info" with
    | none => Except.ok none
    | some (JVal.vmap im) => Except.ok (dictGet im tag)
    | some _ => Except.error PyExc.attributeError
  | _ => Except.error PyExc.attributeError

/-- `get_infrastructure_option(tag, keyname)`: open and decode the
locations JSON file (an `IOError` on open becomes
`BadConfigurationException`); if the top-level value is a list, run
`upgrade_json_file` (whose `BadConfigurationException` propagates) and
re-read the file through the still-open handle; finally look up
`infrastructure_info[tag]`. Returns the Python outcome (the field value
or `None`, or an exception) with the filesystem state afterwards. -/
def get_infrastructure_option (tag keyname : String) (fs : FS) :
    Except PyExc (Option JVal) × FS :=
  match fs.json with
  | none => (Except.error (PyExc.badConfigurationException (readErrMsg keyname)), fs)
  | some file_contents =>
    match file_contents with
    | JVal.vlist _ =>
      match upgrade_json_file keyname fs with
      | (Except.error e, fs2) => (Except.error e, fs2)
      | (Except.ok _, fs2) =>
        match fs2.json with
        | some c2 => (pyGetField c2 tag, fs2)
        | none => (Except.error PyExc.attributeError, fs2)
    | c => (pyGetField c tag, fs)

/-- `get_group(keyname)`. -/
def get_group (keyname : String) (fs : FS) : Except PyExc (Option JVal) × FS :=
  get_infrastructure_option "group" keyname fs

/-- `get_project(keyname)`. -/
def get_project (keyname : String) (fs : FS) : Except PyExc (Option JVal) × FS :=
  get_infrastructure_option "project" keyname fs

/-- `get_zone(keyname)`. -/
def get_zone (keyname : String) (fs : FS) : Except PyExc (Option JVal) × FS :=
  get_infrastructure_option "zone" keyname fs

/-- `get_subscription_id(keyname)`. -/
def get_subscription_id (keyname : String) (fs : FS) : Except PyExc (Option JVal) × FS :=
  get_infrastructure_option "azure_subscription_id" keyname fs

/-- `get_app_id(keyname)`. -/
def get_app_id (keyname : String) (fs : FS) : Except PyExc (Option JVal) × FS :=
  get_infrastructure_option "azure_app_id" keyname fs

/-- `get_app_secret_key(keyname)`. -/
def get_app_secret_key (keyname : String) (fs : FS) : Except PyExc (Option JVal) × FS :=
  get_infrastructure_option "azure_app_secret_key" keyname fs

/-- `get_tenant_id(keyname)`. -/
def get_tenant_id (keyname : String) (fs : FS) : Except PyExc (Option JVal) × FS :=
  get_infrastructure_option "azure_tenant_id" keyname fs

/-- `get_resource_group(keyname)`. -/
def get_resource_group (keyname : String) (fs : FS) : Except PyExc (Option JVal) × FS :=
  get_infrastructure_option "azure_resource_group" keyname fs

/-- `get_storage_account(keyname)`. -/
def get_storage_account (keyname : String) (fs : FS) : Except PyExc (Option JVal) × FS :=
  get_infrastructure_option "azure_storage_account" keyname fs

/-- Outcome of one `subprocess.Popen` launch for a given 0-based attempt
index: either the launch raises `OSError`, or the process runs to
completion with a return code and captured combined stdout/stderr. -/
inductive LaunchResult where
  | launchErr (osError : String)
  | ran (returncode : Int) (output : String)
deriving DecidableEq

/-- The `ShellException` raised by `shell`, with the data its two
distinct message formats carry: exhaustion of retries carries the
command, the stdin shown in the message, and the final captured output;
a launch failure carries the command, the stdin shown, and the
`OSError`. The stdin field holds what the `if stdin:` truthiness test
puts in the message: `none` when stdin was absent or empty. -/
inductive ShellException where
  | commandFailed (command : String) (stdinShown : Option String) (output : String)
  | launchFailed (command : String) (stdinShown : Option String) (osError : String)
deriving DecidableEq

/-- Result of a call to `shell`: the returned output, the implicit
`None` return when the `while` loop body never runs, or a raised
`ShellException`. -/
inductive ShellResult where
  | output (s : String)
  | noneReturned
  | exc (e : ShellException)
deriving DecidableEq

/-- Python truthiness of the `stdin` argument as used by `if stdin:` at
the raise sites: `None` and the empty string are falsy. -/
def pyTruthy (stdin : Option String) : Option String :=
  match stdin with
  | none => none
  | some s => if s = "" then none else some s

/-- The `while tries_left:` loop of `shell`, with `i` the 0-based index
of the next attempt and the second argument `tries_left`. Each
iteration launches the process (`env i`); an `OSError` aborts the whole
loop immediately via the surrounding `except OSError` handler; return
code 0 returns the captured output; otherwise `tries_left` is
decremented and, when it reaches 0, the exhaustion `ShellException` is
raised with this attempt's output. Also counts the launches performed. -/
def shellLoop (env : Nat → LaunchResult) (command : String) (stdin : Option String) :
    Nat → Nat → ShellResult × Nat
  | _, 0 => (ShellResult.noneReturned, 0)
  | i, t + 1 =>
    match env i with
    | LaunchResult.launchErr e =>
      (ShellResult.exc (ShellException.launchFailed command (pyTruthy stdin) e), 1)
    | LaunchResult.ran rc out =>
      if rc = 0 then
        (ShellResult.output out, 1)
      else if t = 0 then
        (ShellResult.exc (ShellException.commandFailed command (pyTruthy stdin) out), 1)
      else
        let r := shellLoop env command stdin (i + 1) t
        (r.1, r.2 + 1)

/-- `DEFAULT_NUM_RETRIES` of `AppScaleState`. -/
def DEFAULT_NUM_RETRIES : Nat := 5

set_option linter.unusedVariables false in
/-- `shell(command, is_verbose, num_retries, stdin)` run against the
launch oracle `env`: the loop starts at attempt index 0 with
`tries_left = num_retries`. The body of the Python function never reads
`is_verbose` (its `logger.debug` calls are unconditional), so the flag
is an unused parameter. Returns the result paired with the number of
launches performed. -/
def shell (command : String) (is_verbose : Bool) (num_retries : Nat)
    (stdin : Option String) (env : Nat → LaunchResult) : ShellResult × Nat :=
  shellLoop env command stdin 0 num_retries

/-- C1: for keyname `X` with legacy JSON `["nodeA","nodeB"]` and legacy
YAML `{zone: us-east1}`, the zone getter returns `"us-east1"`, the JSON
file afterwards decodes to
`{node_info: ["nodeA","nodeB"], infrastructure_info: {zone: "us-east1"}}`,
and the legacy YAML file no longer exists. -/
theorem claim_C1_legacy_zone_migration :
    get_zone "X"
      ⟨some (JVal.vlist [JVal.vstr "nodeA", JVal.vstr "nodeB"]),
       some (JVal.vmap [("zone", JVal.vstr "us-east1")]), true⟩ =
      (Except.ok (some (JVal.vstr "us-east1")),
       ⟨some (JVal.vmap
          [("node_info", JVal.vlist [JVal.vstr "nodeA", JVal.vstr "nodeB"]),
           ("infrastructure_info", JVal.vmap [("zone", JVal.vstr "us-east1")])]),
        none, true⟩) := rfl

/-- C4: the legacy YAML file is never deleted before the JSON write has
succeeded. Every failing execution of `upgrade_json_file` leaves the
filesystem unchanged (in particular, if the JSON write fails the YAML
file still exists), and whenever the YAML file was changed (deleted),
the upgrade succeeded and the JSON file holds the unified document. -/
theorem claim_C4_yaml_outlives_failed_write (keyname : String) (fs : FS) :
    (∀ e, (upgrade_json_file keyname fs).1 = Except.error e →
      (upgrade_json_file keyname fs).2 = fs) ∧
    ((upgrade_json_file keyname fs).2.yaml ≠ fs.yaml →
      (upgrade_json_file keyname fs).1 = Except.ok () ∧
      ∃ r y, fs.json = some r ∧ fs.yaml = some y ∧
        (upgrade_json_file keyname fs).2.json =
          some (JVal.vmap [("node_info", r), ("infrastructure_info", y)])) := by
  obtain ⟨j, y, w⟩ := fs
  cases j <;> cases y <;> cases w <;>
    simp [upgrade_json_file]

theorem claim_C4_yaml_outlives_failed_write_witness :
    (upgrade_json_file "k" ⟨some (JVal.vlist []), some (JVal.vmap []), false⟩).2 =
      ⟨some (JVal.vlist []), some (JVal.vmap []), false⟩ :=
  (claim_C4_yaml_outlives_failed_write "k"
      ⟨some (JVal.vlist []), some (JVal.vmap []), false⟩).1
    (PyExc.badConfigurationException (upgradeErrMsg "k")) rfl

/-- C5: when the locations JSON file decodes to a mapping, any field
getter performs no migration and no write: the filesystem state is
unchanged by the call, for every tag. -/
theorem claim_C5_mapping_no_rewrite (tag keyname : String) (fs : FS)
    (m : List (String × JVal)) (h : fs.json = some (JVal.vmap m)) :
    (get_infrastructure_option tag keyname fs).2 = fs := by
  simp [get_infrastructure_option, h]

theorem claim_C5_mapping_no_rewrite_witness :
    (get_infrastructure_option "zone" "k" ⟨some (JVal.vmap []), none, true⟩).2 =
      ⟨some (JVal.vmap []), none, true⟩ :=
  claim_C5_mapping_no_rewrite "zone" "k" ⟨some (JVal.vmap []), none, true⟩ [] rfl

/-- C6: when the locations JSON file does not exist,
`get_infrastructure_option` — and hence every named field getter —
raises `BadConfigurationException` (the ConfigNotFound condition)
rather than returning a value, for every tag. -/
theorem claim_C6_missing_file_raises (tag keyname : String) (fs : FS)
    (h : fs.json = none) :
    (get_infrastructure_option tag keyname fs).1 =
      Except.error (PyExc.badConfigurationException (readErrMsg keyname)) ∧
    (get_group keyname fs).1 =
      Except.error (PyExc.badConfigurationException (readErrMsg keyname)) ∧
    (get_project keyname fs).1 =
      Except.error (PyExc.badConfigurationException (readErrMsg keyname)) ∧
    (get_zone keyname fs).1 =
      Except.error (PyExc.badConfigurationException (readErrMsg keyname)) ∧
    (get_subscription_id keyname fs).1 =
      Except.error (PyExc.badConfigurationException (readErrMsg keyname)) ∧
    (get_app_id keyname fs).1 =
      Except.error (PyExc.badConfigurationException (readErrMsg keyname)) ∧
    (get_app_secret_key keyname fs).1 =
      Except.error (PyExc.badConfigurationException (readErrMsg keyname)) ∧
    (get_tenant_id keyname fs).1 =
      Except.error (PyExc.badConfigurationException (readErrMsg keyname)) ∧
    (get_resource_group keyname fs).1 =
      Except.error (PyExc.badConfigurationException (readErrMsg keyname)) ∧
    (get_storage_account keyname fs).1 =
      Except.error (PyExc.badConfigurationException (readErrMsg keyname)) := by
  simp [get_infrastructure_option, get_group, get_project, get_zone,
    get_subscription_id, get_app_id, get_app_secret_key, get_tenant_id,
    get_resource_group, get_storage_account, h]

theorem claim_C6_missing_file_raises_witness :
    (get_infrastructure_option "zone" "k" ⟨none, none, true⟩).1 =
      Except.error (PyExc.badConfigurationException (readErrMsg "k")) :=
  (claim_C6_missing_file_raises "zone" "k" ⟨none, none, true⟩ rfl).1

/-- C9: when the locations JSON file decodes to a list (legacy shape)
but the sibling legacy YAML file cannot be read, the getter does not
return a value: it propagates the migration failure, which is a
`BadConfigurationException` — the same exception constructor as the one
raised when the locations file cannot be opened at all, so callers
cannot distinguish the two cases by type. -/
theorem claim_C9_migration_failure_same_type (tag keyname : String) (fs fs2 : FS)
    (l : List JVal) (hj : fs.json = some (JVal.vlist l)) (hy : fs.yaml = none)
    (h2 : fs2.json = none) :
    (get_infrastructure_option tag keyname fs).1 =
      Except.error (PyExc.badConfigurationException (upgradeErrMsg keyname)) ∧
    (upgrade_json_file keyname fs).1 =
      Except.error (PyExc.badConfigurationException (upgradeErrMsg keyname)) ∧
    (get_infrastructure_option tag keyname fs2).1 =
      Except.error (PyExc.badConfigurationException (readErrMsg keyname)) := by
  simp [get_infrastructure_option, upgrade_json_file, hj, hy, h2]

theorem claim_C9_migration_failure_same_type_witness :
    (get_infrastructure_option "zone" "k" ⟨some (JVal.vlist []), none, true⟩).1 =
      Except.error (PyExc.badConfigurationException (upgradeErrMsg "k")) :=
  (claim_C9_migration_failure_same_type "zone" "k"
      ⟨some (JVal.vlist []), none, true⟩ ⟨none, none, true⟩ [] rfl rfl rfl).1

/-- When every attempt runs and exits non-zero, the retry loop started
at attempt index `i` with `t ≥ 1` tries left performs exactly `t`
launches and raises the exhaustion exception carrying the output of the
final attempt, which has index `i + t - 1`. -/
theorem shellLoop_all_nonzero (env : Nat → LaunchResult) (command : String)
    (stdin : Option String) (rc : Nat → Int) (out : Nat → String)
    (henv : ∀ i, env i = LaunchResult.ran (rc i) (out i))
    (hrc : ∀ i, rc i ≠ 0) :
    ∀ t i, 1 ≤ t → shellLoop env command stdin i t =
      (ShellResult.exc (ShellException.commandFailed command (pyTruthy stdin)
        (out (i + t - 1))), t) := by
  intro t
  induction t with
  | zero => intro i h; omega
  | succ t ih =>
    intro i _
    by_cases h0 : t = 0
    · subst h0
      simp [shellLoop, henv i, hrc i]
    · have ht : 1 ≤ t := Nat.one_le_iff_ne_zero.mpr h0
      have harith : i + 1 + t - 1 = i + (t + 1) - 1 := by omega
      simp [shellLoop, henv i, hrc i, h0, ih (i + 1) ht, harith]

/-- When the attempts at indices `i, i+1, ..., i+j-1` run and exit
non-zero and the attempt at index `i + j` exits 0, the retry loop
started at attempt index `i` with `t > j` tries left returns the output
of attempt `i + j` after exactly `j + 1` launches. -/
theorem shellLoop_first_success (env : Nat → LaunchResult) (command : String)
    (stdin : Option String) (rc : Nat → Int) (out : Nat → String) :
    ∀ j i t, j < t →
      (∀ k, k < j →
        env (i + k) = LaunchResult.ran (rc (i + k)) (out (i + k)) ∧ rc (i + k) ≠ 0) →
      env (i + j) = LaunchResult.ran 0 (out (i + j)) →
      shellLoop env command stdin i t = (ShellResult.output (out (i + j)), j + 1) := by
  intro j
  induction j with
  | zero =>
    intro i t ht _ hsucc
    obtain ⟨u, rfl⟩ : ∃ u, t = u + 1 := ⟨t - 1, by omega⟩
    rw [Nat.add_zero] at hsucc
    simp [shellLoop, hsucc]
  | succ j ih =>
    intro i t ht hfail hsucc
    obtain ⟨u, rfl⟩ : ∃ u, t = u + 1 := ⟨t - 1, by omega⟩
    obtain ⟨h0, hrc0⟩ := hfail 0 (Nat.succ_pos j)
    rw [Nat.add_zero] at h0 hrc0
    have hu : u ≠ 0 := by omega
    have hfail1 : ∀ k, k < j →
        env (i + 1 + k) = LaunchResult.ran (rc (i + 1 + k)) (out (i + 1 + k)) ∧
          rc (i + 1 + k) ≠ 0 := by
      intro k hk
      have harith : i + 1 + k = i + (k + 1) := by omega
      rw [harith]
      exact hfail (k + 1) (by omega)
    have hsucc1 : env (i + 1 + j) = LaunchResult.ran 0 (out (i + 1 + j)) := by
      have harith : i + 1 + j = i + (j + 1) := by omega
      rw [harith]
      exact hsucc
    have harith : i + 1 + j = i + (j + 1) := by omega
    simp [shellLoop, h0, hrc0, hu, ih (i + 1) u (by omega) hfail1 hsucc1, harith]

/-- C2 as stated fails for an empty stdin payload: with `maxAttempts` 1
and `stdin` the given empty string, the exhaustion exception produced
by the code carries no stdin (the `if stdin:` truthiness test drops the
empty string), not the given payload. -/
theorem claim_C2_counterexample :
    (shell "c" true 1 (some "") (fun _ => LaunchResult.ran 1 "boom")).1 =
      ShellResult.exc (ShellException.commandFailed "c" none "boom") ∧
    ShellResult.exc (ShellException.commandFailed "c" none "boom") ≠
      ShellResult.exc (ShellException.commandFailed "c" (some "") "boom") := by
  decide

/-- C2 (amended): for every `maxAttempts = N ≥ 1`, a command that runs
and exits non-zero on every attempt is launched exactly `N` times and
then raises the exhaustion `ShellException` carrying the command, the
stdin payload if a non-empty one was given (an absent or empty stdin is
omitted), and the captured output of the final (`N`-th) attempt. -/
theorem claim_C2_all_fail_exhausts_retries (command : String) (v : Bool)
    (N : Nat) (stdin : Option String) (env : Nat → LaunchResult)
    (rc : Nat → Int) (out : Nat → String) (hN : 1 ≤ N)
    (henv : ∀ i, env i = LaunchResult.ran (rc i) (out i))
    (hrc : ∀ i, rc i ≠ 0) :
    shell command v N stdin env =
      (ShellResult.exc (ShellException.commandFailed command (pyTruthy stdin)
        (out (N - 1))), N) := by
  have h := shellLoop_all_nonzero env command stdin rc out henv hrc N 0 hN
  simpa [shell] using h

theorem claim_C2_all_fail_exhausts_retries_witness :
    shell "c" true 2 none (fun _ => LaunchResult.ran 1 "boom") =
      (ShellResult.exc (ShellException.commandFailed "c" none "boom"), 2) := by
  have h := claim_C2_all_fail_exhausts_retries "c" true 2 none
    (fun _ => LaunchResult.ran 1 "boom") (fun _ => 1) (fun _ => "boom")
    (by omega) (fun _ => rfl) (fun _ => one_ne_zero)
  simpa [pyTruthy] using h

/-- C3 as stated fails at `maxAttempts = 0`: even in an environment
where every launch raises `OSError`, `shell` with `num_retries = 0`
performs no attempt and returns `None` instead of raising the
launch-failure exception. -/
theorem claim_C3_counterexample :
    shell "c" true 0 none (fun _ => LaunchResult.launchErr "not found") =
      (ShellResult.noneReturned, 0) ∧
    (shell "c" true 0 none (fun _ => LaunchResult.launchErr "not found")).1 ≠
      ShellResult.exc (ShellException.launchFailed "c" none "not found") := by
  decide

/-- C3 (amended): for every `maxAttempts ≥ 1`, a command whose first
launch raises `OSError` (the executable cannot be found) fails
immediately with the launch-failure `ShellException` — a condition
distinct from a command that runs and exits non-zero — after exactly
one launch and zero retries, regardless of `maxAttempts`. -/
theorem claim_C3_launch_failure_immediate (command osErr : String) (v : Bool)
    (N : Nat) (stdin : Option String) (env : Nat → LaunchResult) (hN : 1 ≤ N)
    (h0 : env 0 = LaunchResult.launchErr osErr) :
    shell command v N stdin env =
      (ShellResult.exc (ShellException.launchFailed command (pyTruthy stdin) osErr),
       1) := by
  obtain ⟨t, rfl⟩ : ∃ t, N = t + 1 := ⟨N - 1, by omega⟩
  rw [shell, shellLoop, h0]

theorem claim_C3_launch_failure_immediate_witness :
    shell "c" true 5 none (fun _ => LaunchResult.launchErr "not found") =
      (ShellResult.exc (ShellException.launchFailed "c" none "not found"), 1) :=
  claim_C3_launch_failure_immediate "c" "not found" true 5 none
    (fun _ => LaunchResult.launchErr "not found") (by omega) rfl

/-- C7: for every `maxAttempts = N ≥ 1`, if the attempts before the
0-based index `j < N` run and exit non-zero and attempt `j` exits 0,
`shell` returns the captured output of attempt `j` immediately, after
exactly `j + 1` launches and no further attempts. -/
theorem claim_C7_success_returns_immediately (command : String) (v : Bool)
    (N j : Nat) (stdin : Option String) (env : Nat → LaunchResult)
    (rc : Nat → Int) (out : Nat → String) (hj : j < N)
    (hfail : ∀ k, k < j → env k = LaunchResult.ran (rc k) (out k) ∧ rc k ≠ 0)
    (hsucc : env j = LaunchResult.ran 0 (out j)) :
    shell command v N stdin env = (ShellResult.output (out j), j + 1) := by
  have h := shellLoop_first_success env command stdin rc out j 0 N hj
    (by simpa using hfail) (by simpa using hsucc)
  simpa [shell] using h

theorem claim_C7_success_returns_immediately_witness :
    shell "c" true 5 none (fun _ => LaunchResult.ran 0 "ok") =
      (ShellResult.output "ok", 1) := by
  have h := claim_C7_success_returns_immediately "c" true 5 0 none
    (fun _ => LaunchResult.ran 0 "ok") (fun _ => 0) (fun _ => "ok")
    (by omega) (fun k hk => absurd hk (Nat.not_lt_zero k)) rfl
  simpa using h

/-- C8: two runs of `shell` that differ only in the verbosity flag —
same command, same stdin, same `num_retries`, same subordinate-process
outcomes — produce identical results: the same returned output on
success, the same exception on failure, and the same number of
launches. The flag is never read by the body. -/
theorem claim_C8_verbosity_has_no_effect (command : String) (v1 v2 : Bool)
    (N : Nat) (stdin : Option String) (env : Nat → LaunchResult) :
    shell command v1 N stdin env = shell command v2 N stdin env := rfl

/-- C10: called with `num_retries = 0`, `shell` performs zero launches
(the `while` loop body never runs, so no subordinate process is
spawned), raises nothing, and returns `None` instead of captured
output, for every command, stdin, and environment. -/
theorem claim_C10_zero_retries_returns_none (command : String) (v : Bool)
    (stdin : Option String) (env : Nat → LaunchResult) :
    shell command v 0 stdin env = (ShellResult.noneReturned, 0) := rfl
